import Mathlib

/-!
Verification development for the todo-app repository.

The repository contains three backend variants and two frontend variants of
the same application:
  * `FrontAuth`  — the browser OIDC+PKCE auth module (frontend `auth.ts`,
    second part of `App.tsx` in the sources): PKCE login, callback code
    exchange, token storage/refresh, and the public query functions.
  * `BearerApi`  — backend variant verifying `Authorization: Bearer` tokens
    against the provider JWKS (first part of `backend/src/index.ts`).
  * `OpenApi`    — backend variant with no authentication on the todo routes
    (second part of `backend/src/index.ts`).
  * `SessionApi` — backend variant terminating the OIDC flow server-side and
    minting a signed `session` cookie (`part_002`).
  * `Routes`     — the todo CRUD handlers, whose bodies are textually
    identical in all three backend variants.

Network effects (fetches to the provider) are embedded as explicit
environment parameters plus a trace of emitted calls; cryptographic
verification (`jose.jwtVerify`) is embedded as an oracle describing whether
a given token verifies and, if so, to which payload.
-/

namespace TodoApp

/-- Identity claims the application derives from a token payload:
`sub`, `email`, `name`. -/
structure User where
  sub : String
  email : String
  name : String
deriving DecidableEq, Repr

/-- JavaScript `a || b` on strings: the empty string is falsy. -/
def jsOr (a b : String) : String := if a = "" then b else a

/-- Whether the first list is an initial segment of the second. -/
def isInitialSegment : List Char → List Char → Bool
  | [], _ => true
  | _ :: _, [] => false
  | p :: ps, c :: cs => p == c && isInitialSegment ps cs

/-- JavaScript `s.startsWith(pre)`. -/
def jsStartsWith (s pre : String) : Bool := isInitialSegment pre.data s.data

/-- JavaScript `s.slice(n)` (for the ASCII strings the application
handles). -/
def jsSlice (s : String) (n : Nat) : String := String.mk (s.data.drop n)

/-- Decoded JSON payload of a JWT segment, restricted to the claims the
application reads.  `none` fields model absent claims (`undefined`). -/
structure JwtPayload where
  exp : Option Int := none
  sub : Option String := none
  email : Option String := none
  name : Option String := none
  preferred_username : Option String := none
  nonce : Option String := none
deriving DecidableEq, Repr

/-- A JWT string as the browser manipulates it.  `payloadSeg` is the result
of `JSON.parse(atob(token.split(".")[1]))`: `some` payload when that
expression succeeds, `none` when it throws (malformed/undecodable token). -/
structure Token where
  payloadSeg : Option JwtPayload
deriving DecidableEq, Repr

/-- Form body of a POST to the provider token endpoint.  Absent form fields
are `none`. -/
structure TokenRequestBody where
  grant_type : String
  code : Option String := none
  redirect_uri : Option String := none
  client_id : Option String := none
  code_verifier : Option String := none
  client_secret : Option String := none
  refresh_token : Option String := none
deriving DecidableEq, Repr

/-- A network request emitted during auth handling. -/
inductive NetCall where
  | discovery : NetCall
  | jwksFetch : NetCall
  | tokenEndpoint (body : TokenRequestBody) : NetCall
deriving DecidableEq, Repr

/-- Query parameters read by the OAuth callback handlers. -/
structure CallbackParams where
  code : Option String := none
  state : Option String := none
  error : Option String := none
deriving DecidableEq, Repr

/-- Query parameters both variants put on the authorization-endpoint
redirect URL at login start. -/
structure AuthRedirectParams where
  client_id : String
  redirect_uri : String
  response_type : String
  scope : String
  state : String
  code_challenge : Option String := none
  code_challenge_method : Option String := none
  nonce : Option String := none
  prompt : Option String := none
deriving DecidableEq, Repr

/-- Outcome of a fetch to the token endpoint as the browser module consumes
it: a non-2xx response, or a 2xx JSON body with `access_token` and an
optional `refresh_token`. -/
inductive TokenFetch where
  | err : TokenFetch
  | ok (access : Token) (refresh : Option String) : TokenFetch
deriving DecidableEq, Repr

namespace FrontAuth

/-- `CLIENT_ID` constant of the frontend auth module. -/
def CLIENT_ID : String := "5QFMboN9PXKIrx5X4In59wXZlv0DpUAreYes1fql"

/-- `REDIRECT_URI` constant: `window.location.origin + "/callback"` at the
deployed origin. -/
def REDIRECT_URI : String := "https://todo.snir.sh/callback"

/-- The `sessionStorage` keys the auth module uses.  `access_token` holds a
JWT string (embedded as `Token`); the others are opaque strings. -/
structure SessionStore where
  access_token : Option Token := none
  refresh_token : Option String := none
  pkce_verifier : Option String := none
  auth_state : Option String := none
deriving DecidableEq, Repr

/-- State of the auth module: the in-memory variables `_accessToken`,
`_refreshToken`, `_user`, plus `sessionStorage`. -/
structure AuthModuleState where
  accessToken : Option Token := none
  refreshToken : Option String := none
  user : Option User := none
  store : SessionStore := {}
deriving DecidableEq, Repr

/-- The `try` block of `storeTokens` that decodes `_user` from the access
token payload; `none` models the `catch` branch setting `_user = null`. -/
def decodeUser (t : Token) : Option User :=
  match t.payloadSeg with
  | none => none
  | some p =>
      some { sub := p.sub.getD ""
             email := p.email.getD ""
             name := jsOr (p.name.getD "") (p.preferred_username.getD "") }

/-- `storeTokens(access, refresh?)`: set the memory and `sessionStorage`
copies of the tokens, then decode `_user` from the access token. -/
def storeTokens (access : Token) (refresh : Option String)
    (s : AuthModuleState) : AuthModuleState :=
  let s1 := { s with accessToken := some access,
                     store := { s.store with access_token := some access } }
  let s2 :=
    match refresh with
    | some r => { s1 with refreshToken := some r,
                          store := { s1.store with refresh_token := some r } }
    | none => s1
  { s2 with user := decodeUser access }

/-- `clearTokens()`: null the memory variables and remove the two
`sessionStorage` token entries. -/
def clearTokens (s : AuthModuleState) : AuthModuleState :=
  { s with accessToken := none, refreshToken := none, user := none,
           store := { s.store with access_token := none,
                                   refresh_token := none } }

/-- `isTokenExpired(token)`: `payload.exp * 1000 < Date.now() + 60_000`.
An undecodable payload throws, and the `catch` returns `true`; a decodable
payload without an `exp` claim makes the JS comparison `NaN < _`, which is
`false`. -/
def isTokenExpired (t : Token) (now : Int) : Bool :=
  match t.payloadSeg with
  | none => true
  | some p =>
      match p.exp with
      | some e => decide (e * 1000 < now + 60000)
      | none => false

/-- `refreshAccessToken()`: no-op `false` without a refresh token; on a
non-2xx token-endpoint response clear all tokens and return `false`; on
success store the returned tokens and return `true`. -/
def refreshAccessToken (env : TokenFetch) (s : AuthModuleState) :
    Bool × AuthModuleState :=
  match s.refreshToken with
  | none => (false, s)
  | some _ =>
      match env with
      | .err => (false, clearTokens s)
      | .ok a r => (true, storeTokens a r s)

/-- Result of `getAccessToken()`: the returned value, the module state
afterwards, and whether a refresh fetch was issued. -/
structure GetTokenOut where
  result : Option Token
  state : AuthModuleState
  refreshAttempted : Bool
deriving DecidableEq, Repr

/-- The tail of `getAccessToken()` after the fresh-token fast path: try a
refresh if `_refreshToken` is present, else return `null`. -/
def getAccessTokenTryRefresh (env : TokenFetch) (s : AuthModuleState) :
    GetTokenOut :=
  match s.refreshToken with
  | some _ =>
      let r := refreshAccessToken env s
      if r.1 then { result := r.2.accessToken, state := r.2, refreshAttempted := true }
      else { result := none, state := r.2, refreshAttempted := true }
  | none => { result := none, state := s, refreshAttempted := false }

/-- `getAccessToken()`: return the stored token when present and not
expired; otherwise attempt a silent refresh; otherwise `null`. -/
def getAccessToken (env : TokenFetch) (now : Int) (s : AuthModuleState) :
    GetTokenOut :=
  match s.accessToken with
  | some t =>
      if isTokenExpired t now then getAccessTokenTryRefresh env s
      else { result := some t, state := s, refreshAttempted := false }
  | none => getAccessTokenTryRefresh env s

/-- `getUser()`: `null` without a token, or when the token is expired and
no refresh token exists; otherwise the decoded `_user`. -/
def getUser (now : Int) (s : AuthModuleState) : Option User :=
  match s.accessToken with
  | none => none
  | some t =>
      if isTokenExpired t now && s.refreshToken.isNone then none
      else s.user

/-- `isAuthenticated()`:
`!!_accessToken && (!isTokenExpired(_accessToken) || !!_refreshToken)`. -/
def isAuthenticated (now : Int) (s : AuthModuleState) : Bool :=
  match s.accessToken with
  | none => false
  | some t => !isTokenExpired t now || s.refreshToken.isSome

/-- `login()`: store the PKCE verifier and state in `sessionStorage` and
build the authorization-endpoint redirect parameters (with an `S256`
challenge).  The random verifier/challenge/state are parameters since the
embedding has no entropy source. -/
def login (verifier challenge state : String) (s : AuthModuleState) :
    AuthModuleState × AuthRedirectParams :=
  ({ s with store := { s.store with pkce_verifier := some verifier,
                                    auth_state := some state } },
   { client_id := CLIENT_ID
     redirect_uri := REDIRECT_URI
     response_type := "code"
     scope := "openid email profile"
     state := state
     code_challenge := some challenge
     code_challenge_method := some "S256" })

/-- Result of `handleCallback()`: the returned boolean, the module state
afterwards, and the trace of network calls issued. -/
structure CallbackOut where
  success : Bool
  state : AuthModuleState
  calls : List NetCall
deriving DecidableEq, Repr

/-- `handleCallback()`: reject on a provider `error`, a missing `code`, a
`state` different from the stored one, or a missing verifier — all before
any fetch; then exchange the code (discovery fetch plus token fetch), and
on success store the tokens and remove the single-use verifier/state. -/
def handleCallback (env : TokenFetch) (p : CallbackParams)
    (s : AuthModuleState) : CallbackOut :=
  if p.error.isSome then { success := false, state := s, calls := [] }
  else
    match p.code with
    | none => { success := false, state := s, calls := [] }
    | some code =>
        if p.state ≠ s.store.auth_state then
          { success := false, state := s, calls := [] }
        else
          match s.store.pkce_verifier with
          | none => { success := false, state := s, calls := [] }
          | some verifier =>
              let body : TokenRequestBody :=
                { grant_type := "authorization_code"
                  code := some code
                  redirect_uri := some REDIRECT_URI
                  client_id := some CLIENT_ID
                  code_verifier := some verifier }
              match env with
              | .err =>
                  { success := false, state := s,
                    calls := [.discovery, .tokenEndpoint body] }
              | .ok a r =>
                  let s1 := storeTokens a r s
                  let s2 := { s1 with store :=
                    { s1.store with pkce_verifier := none, auth_state := none } }
                  { success := true, state := s2,
                    calls := [.discovery, .tokenEndpoint body] }

end FrontAuth

/-- Strip whitespace from both ends of a character list. -/
def trimChars (l : List Char) : List Char :=
  (l.dropWhile Char.isWhitespace).rdropWhile Char.isWhitespace

/-- JavaScript `String.prototype.trim()`: strip whitespace from both ends
(restricted to the ASCII whitespace class, which covers the application's
inputs). -/
def jsTrim (s : String) : String :=
  String.mk (trimChars s.data)

/-- A row of the `todos` table. -/
structure Todo where
  id : Nat
  text : String
  completed : Bool
  created_at : Nat
deriving DecidableEq, Repr

/-- A statement executed against the todo store. -/
inductive DbOp where
  | selectAll : DbOp
  | insertText (text : String) : DbOp
  | updateRow (id : Nat) (text : Option String) (completed : Option Bool) : DbOp
  | deleteRow (id : Nat) : DbOp
deriving DecidableEq, Repr

/-- JSON body of a todo-route response. -/
inductive ApiBody where
  | todos (rows : List Todo) : ApiBody
  | todo (row : Todo) : ApiBody
  | errMsg (e : String) : ApiBody
  | okTrue : ApiBody
deriving DecidableEq, Repr

/-- An HTTP response of the todo routes. -/
structure ApiResponse where
  status : Nat
  body : ApiBody
deriving DecidableEq, Repr

/-- Body of a `PATCH /api/todos/:id` request. -/
structure PatchBody where
  text : Option String := none
  completed : Option Bool := none
deriving DecidableEq, Repr

namespace Routes

/-- `GET /api/todos` handler body: `SELECT *` and return the rows (the
`ORDER BY created_at DESC` is delegated to the store collaborator). -/
def getTodos (db : List Todo) : ApiResponse × List DbOp :=
  ({ status := 200, body := .todos db }, [.selectAll])

/-- `POST /api/todos` handler body: reject when `text` is absent or trims
to the empty string (`!text?.trim()`), else insert the trimmed text. -/
def postTodos (text : Option String) (nextId now : Nat) (db : List Todo) :
    (ApiResponse × List Todo) × List DbOp :=
  match text with
  | none => (({ status := 400, body := .errMsg "text is required" }, db), [])
  | some t =>
      if jsTrim t = "" then
        (({ status := 400, body := .errMsg "text is required" }, db), [])
      else
        let row : Todo :=
          { id := nextId, text := jsTrim t, completed := false, created_at := now }
        (({ status := 201, body := .todo row }, db ++ [row]),
         [.insertText (jsTrim t)])

/-- The `SET` clause of the patch `UPDATE`, applied to one row: each field
provided in the body replaces the column verbatim. -/
def applyPatch (b : PatchBody) (t : Todo) : Todo :=
  { t with text := b.text.getD t.text, completed := b.completed.getD t.completed }

/-- `PATCH /api/todos/:id` handler body: 400 when neither field is given;
otherwise run the `UPDATE ... RETURNING *` and answer 404 when no row
matched, else the updated row. -/
def patchTodo (id : Nat) (b : PatchBody) (db : List Todo) :
    (ApiResponse × List Todo) × List DbOp :=
  if b.text.isNone && b.completed.isNone then
    (({ status := 400, body := .errMsg "nothing to update" }, db), [])
  else
    let op := DbOp.updateRow id b.text b.completed
    match db.find? (fun t => t.id = id) with
    | none => (({ status := 404, body := .errMsg "not found" }, db), [op])
    | some t0 =>
        let db' := db.map (fun t => if t.id = id then applyPatch b t else t)
        (({ status := 200, body := .todo (applyPatch b t0) }, db'), [op])

/-- `DELETE /api/todos/:id` handler body: run the `DELETE` and answer 404
when `rowCount` is zero. -/
def deleteTodo (id : Nat) (db : List Todo) :
    (ApiResponse × List Todo) × List DbOp :=
  let db' := db.filter (fun t => t.id ≠ id)
  if db.any (fun t => t.id = id) then
    (({ status := 200, body := .okTrue }, db'), [.deleteRow id])
  else
    (({ status := 404, body := .errMsg "not found" }, db), [.deleteRow id])

end Routes

/-- Result of an auth middleware: a JSON rejection, or the request
continuing with `c.set("user", ...)`. -/
inductive AuthResult where
  | reject (status : Nat) (body : String) : AuthResult
  | ok (user : User) : AuthResult
deriving DecidableEq, Repr

namespace BearerApi

/-- `requireAuth` of the bearer backend: 401 `unauthorized` when the
`Authorization` header is missing or does not start with `Bearer `;
otherwise verify the sliced token against the JWKS with the configured
issuer — a throw yields 401 `invalid_token`, success sets the user from
the payload claims.  `verify` is the `jose.jwtVerify` oracle: `some`
payload when the token verifies, `none` when verification throws. -/
def requireAuth (verify : String → Option JwtPayload)
    (authHeader : Option String) : AuthResult :=
  match authHeader with
  | none => .reject 401 "unauthorized"
  | some h =>
      if jsStartsWith h "Bearer " then
        match verify (jsSlice h 7) with
        | some payload =>
            .ok { sub := payload.sub.getD ""
                  email := payload.email.getD ""
                  name := jsOr (payload.name.getD "")
                    (payload.preferred_username.getD "") }
        | none => .reject 401 "invalid_token"
      else .reject 401 "unauthorized"

/-- `GET /api/todos` of the bearer backend: `requireAuth` then the shared
handler; a rejected request runs no store statement. -/
def getTodos (verify : String → Option JwtPayload) (hdr : Option String)
    (db : List Todo) : ApiResponse × List DbOp :=
  match requireAuth verify hdr with
  | .reject st b => ({ status := st, body := .errMsg b }, [])
  | .ok _ => Routes.getTodos db

/-- `POST /api/todos` of the bearer backend. -/
def postTodos (verify : String → Option JwtPayload) (hdr : Option String)
    (text : Option String) (nextId now : Nat) (db : List Todo) :
    (ApiResponse × List Todo) × List DbOp :=
  match requireAuth verify hdr with
  | .reject st b => (({ status := st, body := .errMsg b }, db), [])
  | .ok _ => Routes.postTodos text nextId now db

/-- `PATCH /api/todos/:id` of the bearer backend. -/
def patchTodo (verify : String → Option JwtPayload) (hdr : Option String)
    (id : Nat) (b : PatchBody) (db : List Todo) :
    (ApiResponse × List Todo) × List DbOp :=
  match requireAuth verify hdr with
  | .reject st bd => (({ status := st, body := .errMsg bd }, db), [])
  | .ok _ => Routes.patchTodo id b db

/-- `DELETE /api/todos/:id` of the bearer backend. -/
def deleteTodo (verify : String → Option JwtPayload) (hdr : Option String)
    (id : Nat) (db : List Todo) : (ApiResponse × List Todo) × List DbOp :=
  match requireAuth verify hdr with
  | .reject st b => (({ status := st, body := .errMsg b }, db), [])
  | .ok _ => Routes.deleteTodo id db

end BearerApi

namespace OpenApi

/-- `GET /api/todos` of the second backend variant: registered without any
auth middleware — the handler runs for every request. -/
def getTodos (db : List Todo) : ApiResponse × List DbOp :=
  Routes.getTodos db

/-- `POST /api/todos` of the second backend variant (no auth middleware). -/
def postTodos (text : Option String) (nextId now : Nat) (db : List Todo) :
    (ApiResponse × List Todo) × List DbOp :=
  Routes.postTodos text nextId now db

/-- `PATCH /api/todos/:id` of the second backend variant (no auth
middleware). -/
def patchTodo (id : Nat) (b : PatchBody) (db : List Todo) :
    (ApiResponse × List Todo) × List DbOp :=
  Routes.patchTodo id b db

/-- `DELETE /api/todos/:id` of the second backend variant (no auth
middleware). -/
def deleteTodo (id : Nat) (db : List Todo) :
    (ApiResponse × List Todo) × List DbOp :=
  Routes.deleteTodo id db

end OpenApi

namespace SessionApi

/-- Environment-driven configuration of the session backend, with the
source defaults for unset variables. -/
structure Config where
  CLIENT_ID : String := ""
  CLIENT_SECRET : String := ""
  REDIRECT_URI : String := ""
  APP_URL : String := "https://todo.snir.sh"
deriving DecidableEq, Repr

/-- An application-minted session JWT as it sits in the `session` cookie:
the embedded claims, issued-at, expiry (`iat + 30` days), and whether it is
signed with the server's symmetric `sessionKey`. -/
structure SessionJwt where
  claims : User
  iat : Nat
  exp : Nat
  sigOk : Bool
deriving DecidableEq, Repr

/-- `jose.jwtVerify(token, sessionKey)`: yields the payload when the
signature checks out and the token is not expired, throws (here `none`)
otherwise. -/
def SessionJwt.verify (t : SessionJwt) (now : Nat) : Option User :=
  if t.sigOk && decide (now < t.exp) then some t.claims else none

/-- Cookies of the session backend. -/
structure Cookies where
  auth_state : Option String := none
  auth_nonce : Option String := none
  session : Option SessionJwt := none
deriving DecidableEq, Repr

/-- `getSession(c)`: `null` without a `session` cookie; otherwise verify it
against the symmetric key, `null` when verification throws. -/
def getSession (now : Nat) (ck : Cookies) : Option User :=
  match ck.session with
  | none => none
  | some t => t.verify now

/-- `requireAuth` of the session backend: 401 `unauthorized` when
`getSession` yields nothing. -/
def requireAuth (now : Nat) (ck : Cookies) : AuthResult :=
  match getSession now ck with
  | none => .reject 401 "unauthorized"
  | some u => .ok u

/-- `GET /api/auth/login`: store freshly generated `state` and `nonce` in
short-lived (5-minute) httpOnly cookies and build the
authorization-endpoint redirect — note: no PKCE challenge parameters.  The
two `crypto.randomUUID()` values are parameters since the embedding has no
entropy source. -/
def serverLogin (cfg : Config) (state nonce : String) (ck : Cookies) :
    Cookies × AuthRedirectParams :=
  ({ ck with auth_state := some state, auth_nonce := some nonce },
   { client_id := cfg.CLIENT_ID
     redirect_uri := cfg.REDIRECT_URI
     response_type := "code"
     scope := "openid email profile"
     state := state
     nonce := some nonce })

/-- Claims of a provider ID token after `jose.jwtVerify` succeeded. -/
structure IdPayload where
  sub : String
  email : Option String := none
  name : Option String := none
  preferred_username : Option String := none
  nonce : Option String := none
deriving DecidableEq, Repr

/-- Outcome of the code exchange as the server callback consumes it: a
non-2xx token response; a 2xx response whose `id_token` fails
`jose.jwtVerify` (signature/issuer/audience); or one that verifies to a
payload. -/
inductive ExchangeOutcome where
  | err : ExchangeOutcome
  | okUnverifiable : ExchangeOutcome
  | okVerified (payload : IdPayload) : ExchangeOutcome
deriving DecidableEq, Repr

/-- Responses the server callback can produce. -/
inductive CallbackResponse where
  | redirectError (e : String) : CallbackResponse
  | invalidState : CallbackResponse
  | exchangeFailed : CallbackResponse
  | verifyFailed : CallbackResponse
  | invalidNonce : CallbackResponse
  | redirectApp : CallbackResponse
deriving DecidableEq, Repr

/-- Result of the server callback: the response, the cookies after the
handler's set/delete operations, and the network calls issued. -/
structure ServerCallbackOut where
  response : CallbackResponse
  cookies : Cookies
  calls : List NetCall
deriving DecidableEq, Repr

/-- The session JWT the success path signs: the three identity claims (with
the `||` fallbacks), `setIssuedAt`, `setExpirationTime("30d")`, signed with
the server key. -/
def mintSession (p : IdPayload) (now : Nat) : SessionJwt :=
  { claims := { sub := p.sub
                email := p.email.getD ""
                name := jsOr (p.name.getD "") (p.preferred_username.getD "") }
    iat := now
    exp := now + 30 * 24 * 60 * 60
    sigOk := true }

/-- `GET /api/auth/callback`: redirect back with the provider `error` if
present; 400 when `state` is missing or differs from the `auth_state`
cookie — both before any fetch; then exchange the code (no PKCE verifier,
with the client secret), verify the returned ID token, compare its `nonce`
claim with the `auth_nonce` cookie when that cookie is present, and on
success mint the session cookie and delete the two flow cookies. -/
def callback (cfg : Config) (env : ExchangeOutcome) (now : Nat)
    (p : CallbackParams) (ck : Cookies) : ServerCallbackOut :=
  match p.error with
  | some e => { response := .redirectError e, cookies := ck, calls := [] }
  | none =>
      match p.state with
      | none => { response := .invalidState, cookies := ck, calls := [] }
      | some st =>
          if ck.auth_state ≠ some st then
            { response := .invalidState, cookies := ck, calls := [] }
          else
            let body : TokenRequestBody :=
              { grant_type := "authorization_code"
                code := p.code
                redirect_uri := some cfg.REDIRECT_URI
                client_id := some cfg.CLIENT_ID
                client_secret := some cfg.CLIENT_SECRET }
            match env with
            | .err =>
                { response := .exchangeFailed, cookies := ck,
                  calls := [.discovery, .tokenEndpoint body] }
            | .okUnverifiable =>
                { response := .verifyFailed, cookies := ck,
                  calls := [.discovery, .tokenEndpoint body, .jwksFetch] }
            | .okVerified payload =>
                let calls :=
                  [NetCall.discovery, .tokenEndpoint body, .jwksFetch]
                let okOut : ServerCallbackOut :=
                  { response := .redirectApp
                    cookies := { ck with
                      session := some (mintSession payload now)
                      auth_state := none
                      auth_nonce := none }
                    calls := calls }
                match ck.auth_nonce with
                | some n =>
                    if payload.nonce ≠ some n then
                      { response := .invalidNonce, cookies := ck, calls := calls }
                    else okOut
                | none => okOut

/-- `GET /api/todos` of the session backend. -/
def getTodos (now : Nat) (ck : Cookies) (db : List Todo) :
    ApiResponse × List DbOp :=
  match requireAuth now ck with
  | .reject st b => ({ status := st, body := .errMsg b }, [])
  | .ok _ => Routes.getTodos db

/-- `POST /api/todos` of the session backend. -/
def postTodos (now : Nat) (ck : Cookies) (text : Option String)
    (nextId ts : Nat) (db : List Todo) :
    (ApiResponse × List Todo) × List DbOp :=
  match requireAuth now ck with
  | .reject st b => (({ status := st, body := .errMsg b }, db), [])
  | .ok _ => Routes.postTodos text nextId ts db

/-- `PATCH /api/todos/:id` of the session backend. -/
def patchTodo (now : Nat) (ck : Cookies) (id : Nat) (b : PatchBody)
    (db : List Todo) : (ApiResponse × List Todo) × List DbOp :=
  match requireAuth now ck with
  | .reject st bd => (({ status := st, body := .errMsg bd }, db), [])
  | .ok _ => Routes.patchTodo id b db

/-- `DELETE /api/todos/:id` of the session backend. -/
def deleteTodo (now : Nat) (ck : Cookies) (id : Nat) (db : List Todo) :
    (ApiResponse × List Todo) × List DbOp :=
  match requireAuth now ck with
  | .reject st b => (({ status := st, body := .errMsg b }, db), [])
  | .ok _ => Routes.deleteTodo id db

end SessionApi

/-- The spec's data-model requirement on todo text: non-empty and carrying
no surrounding whitespace. -/
def textOk (s : String) : Prop := s ≠ "" ∧ jsTrim s = s

instance (s : String) : Decidable (textOk s) :=
  inferInstanceAs (Decidable (s ≠ "" ∧ jsTrim s = s))

/-- A todo row whose text meets the spec's data-model requirement. -/
def todoOk (t : Todo) : Prop := textOk t.text

instance (t : Todo) : Decidable (todoOk t) :=
  inferInstanceAs (Decidable (textOk t.text))

/-! ### Helper lemmas about trimming -/

theorem trimChars_idem (l : List Char) : trimChars (trimChars l) = trimChars l := by
  unfold trimChars
  have hfront :
      ((l.dropWhile Char.isWhitespace).rdropWhile Char.isWhitespace).dropWhile
        Char.isWhitespace
      = (l.dropWhile Char.isWhitespace).rdropWhile Char.isWhitespace := by
    rw [List.dropWhile_eq_self_iff]
    intro hl
    have hpre := List.rdropWhile_prefix Char.isWhitespace
      (l.dropWhile Char.isWhitespace)
    have hlen : 0 < (l.dropWhile Char.isWhitespace).length :=
      lt_of_lt_of_le hl hpre.length_le
    have hnot := List.dropWhile_get_zero_not Char.isWhitespace l hlen
    have hget :
        ((l.dropWhile Char.isWhitespace).rdropWhile Char.isWhitespace).get ⟨0, hl⟩
        = (l.dropWhile Char.isWhitespace).get ⟨0, hlen⟩ := by
      simp only [List.get_eq_getElem]
      exact hpre.getElem hl
    rw [hget]
    exact hnot
  rw [hfront, List.rdropWhile_idempotent]

theorem jsTrim_idem (s : String) : jsTrim (jsTrim s) = jsTrim s :=
  congrArg String.mk (trimChars_idem s.data)

/-! ### C9 — todo text invariant -/

/-- C9 (amended): creation rejects text that trims to the empty string with
a 400 and leaves the table unchanged, and the rows it stores have non-empty
trimmed text; the patch operation preserves the text invariant only when
its body carries no `text` field (it applies a provided `text` verbatim,
without validation or trimming — see the counterexample); deletion
preserves the invariant. -/
theorem C9_theorem (txt : Option String) (nextId now id : Nat) (b : PatchBody)
    (db : List Todo) (hdb : ∀ t ∈ db, todoOk t) :
    (∀ t ∈ (Routes.postTodos txt nextId now db).1.2, todoOk t)
    ∧ (∀ s, txt = some s → jsTrim s = "" →
        (Routes.postTodos txt nextId now db).1.1.status = 400
        ∧ (Routes.postTodos txt nextId now db).1.2 = db)
    ∧ (b.text = none → ∀ t ∈ (Routes.patchTodo id b db).1.2, todoOk t)
    ∧ (∀ t ∈ (Routes.deleteTodo id db).1.2, todoOk t) := by
  refine ⟨?_, ?_, ?_, ?_⟩
  · cases txt with
    | none => simpa [Routes.postTodos] using hdb
    | some t =>
        by_cases h : jsTrim t = ""
        · simpa [Routes.postTodos, h] using hdb
        · intro x hx
          simp [Routes.postTodos, h] at hx
          rcases hx with hx | hx
          · exact hdb x hx
          · subst hx
            exact ⟨h, jsTrim_idem t⟩
  · intro s hs hempty
    subst hs
    simp [Routes.postTodos, hempty]
  · intro htext x hx
    rcases b with ⟨btext, bcomp⟩
    simp only at htext
    subst htext
    cases bcomp with
    | none =>
        simp [Routes.patchTodo] at hx
        exact hdb x hx
    | some c =>
        simp only [Routes.patchTodo, Option.isNone_none, Option.isNone_some,
          Bool.true_and, Bool.false_and, if_false] at hx
        cases hfind : db.find? (fun t => t.id = id) with
        | none =>
            rw [hfind] at hx
            exact hdb x hx
        | some t0 =>
            rw [hfind] at hx
            simp [List.mem_map] at hx
            obtain ⟨y, hy, hxy⟩ := hx
            by_cases hid : y.id = id
            · rw [if_pos hid] at hxy
              subst hxy
              exact hdb y hy
            · rw [if_neg hid] at hxy
              subst hxy
              exact hdb y hy
  · intro x hx
    unfold Routes.deleteTodo at hx
    by_cases hany : db.any (fun t => t.id = id)
    · simp [hany] at hx
      exact hdb x hx.1
    · simp [hany] at hx
      exact hdb x hx

/-- Witness for C9 at concrete inputs. -/
theorem C9_witness :
    (∀ t ∈ (Routes.postTodos (some " buy milk ") 2 7
        [{ id := 1, text := "a", completed := false, created_at := 0 }]).1.2, todoOk t)
    ∧ (∀ s, (some " buy milk " : Option String) = some s → jsTrim s = "" →
        (Routes.postTodos (some " buy milk ") 2 7
          [{ id := 1, text := "a", completed := false, created_at := 0 }]).1.1.status = 400
        ∧ (Routes.postTodos (some " buy milk ") 2 7
          [{ id := 1, text := "a", completed := false, created_at := 0 }]).1.2
          = [{ id := 1, text := "a", completed := false, created_at := 0 }])
    ∧ (({ text := none, completed := some true } : PatchBody).text = none →
        ∀ t ∈ (Routes.patchTodo 1 { text := none, completed := some true }
          [{ id := 1, text := "a", completed := false, created_at := 0 }]).1.2, todoOk t)
    ∧ (∀ t ∈ (Routes.deleteTodo 1
        [{ id := 1, text := "a", completed := false, created_at := 0 }]).1.2, todoOk t) :=
  C9_theorem (some " buy milk ") 2 7 1 { text := none, completed := some true }
    [{ id := 1, text := "a", completed := false, created_at := 0 }] (by decide)

/-- C9 counterexample: a PATCH whose body carries whitespace-only text is
accepted with 200 and stores the text verbatim, leaving a todo whose text
is whitespace — refuting the claim that no operation can leave a todo with
empty or untrimmed text. -/
theorem C9_counterexample :
    (Routes.patchTodo 1 { text := some " ", completed := none }
      [{ id := 1, text := "a", completed := false, created_at := 0 }]).1.1.status = 200
    ∧ (Routes.patchTodo 1 { text := some " ", completed := none }
      [{ id := 1, text := "a", completed := false, created_at := 0 }]).1.2
      = [{ id := 1, text := " ", completed := false, created_at := 0 }]
    ∧ ¬ todoOk { id := 1, text := " ", completed := false, created_at := 0 } := by
  decide

/-! ### C7 — 60-second expiry buffer -/

/-- C7: a stored credential whose `exp` claim satisfies
`exp * 1000 < now + 60000` (e.g. 30 seconds in the future) is classified as
expired by `isTokenExpired`; `getAccessToken` does not return it directly:
without a refresh token it returns `null` with no refresh attempt, and with
a refresh token it issues a refresh attempt. -/
theorem C7_theorem (env : TokenFetch) (now : Int) (s : FrontAuth.AuthModuleState)
    (t : Token) (p : JwtPayload) (e : Int)
    (hacc : s.accessToken = some t)
    (hseg : t.payloadSeg = some p)
    (hexp : p.exp = some e)
    (hlt : e * 1000 < now + 60000) :
    FrontAuth.isTokenExpired t now = true
    ∧ (s.refreshToken = none →
        (FrontAuth.getAccessToken env now s).result = none
        ∧ (FrontAuth.getAccessToken env now s).refreshAttempted = false)
    ∧ (s.refreshToken.isSome = true →
        (FrontAuth.getAccessToken env now s).refreshAttempted = true) := by
  have hexpired : FrontAuth.isTokenExpired t now = true := by
    simp [FrontAuth.isTokenExpired, hseg, hexp, hlt]
  refine ⟨hexpired, ?_, ?_⟩
  · intro hrt
    simp [FrontAuth.getAccessToken, hacc, hexpired,
      FrontAuth.getAccessTokenTryRefresh, hrt]
  · intro hrt
    obtain ⟨r, hr⟩ := Option.isSome_iff_exists.mp hrt
    cases env with
    | err =>
        simp [FrontAuth.getAccessToken, hacc, hexpired,
          FrontAuth.getAccessTokenTryRefresh, hr, FrontAuth.refreshAccessToken]
    | ok a rf =>
        simp [FrontAuth.getAccessToken, hacc, hexpired,
          FrontAuth.getAccessTokenTryRefresh, hr, FrontAuth.refreshAccessToken]

/-- Witness for C7: a token whose `exp` claim is 30 seconds after `now`. -/
theorem C7_witness :
    FrontAuth.isTokenExpired { payloadSeg := some { exp := some 30 } } 0 = true
    ∧ ((none : Option String) = none →
        (FrontAuth.getAccessToken .err 0
          { accessToken := some { payloadSeg := some { exp := some 30 } } }).result = none
        ∧ (FrontAuth.getAccessToken .err 0
          { accessToken := some { payloadSeg := some { exp := some 30 } } }).refreshAttempted
          = false)
    ∧ ((none : Option String).isSome = true →
        (FrontAuth.getAccessToken .err 0
          { accessToken := some { payloadSeg := some { exp := some 30 } } }).refreshAttempted
          = true) :=
  C7_theorem .err 0 { accessToken := some { payloadSeg := some { exp := some 30 } } }
    { payloadSeg := some { exp := some 30 } } { exp := some 30 } 30
    rfl rfl rfl (by decide)

/-! ### C8 — failed refresh clears all credential material -/

/-- C8: a refresh attempt that receives a non-2xx token-endpoint response
returns `false` and clears the in-memory access/refresh tokens, the decoded
user, and both `sessionStorage` entries; every subsequent `getAccessToken`
on the cleared state returns `null` without attempting a refresh. -/
theorem C8_theorem (s : FrontAuth.AuthModuleState) (r : String)
    (hrt : s.refreshToken = some r) :
    (FrontAuth.refreshAccessToken .err s).1 = false
    ∧ (FrontAuth.refreshAccessToken .err s).2 = FrontAuth.clearTokens s
    ∧ (FrontAuth.refreshAccessToken .err s).2.accessToken = none
    ∧ (FrontAuth.refreshAccessToken .err s).2.refreshToken = none
    ∧ (FrontAuth.refreshAccessToken .err s).2.user = none
    ∧ (FrontAuth.refreshAccessToken .err s).2.store.access_token = none
    ∧ (FrontAuth.refreshAccessToken .err s).2.store.refresh_token = none
    ∧ (∀ (env : TokenFetch) (now : Int),
        (FrontAuth.getAccessToken env now (FrontAuth.refreshAccessToken .err s).2).result
          = none
        ∧ (FrontAuth.getAccessToken env now
            (FrontAuth.refreshAccessToken .err s).2).refreshAttempted = false) := by
  simp [FrontAuth.refreshAccessToken, hrt, FrontAuth.clearTokens,
    FrontAuth.getAccessToken, FrontAuth.getAccessTokenTryRefresh]

/-- Witness for C8 at a concrete logged-in state. -/
theorem C8_witness :
    (FrontAuth.refreshAccessToken .err
      { accessToken := some { payloadSeg := some { exp := some 99 } },
        refreshToken := some "rt",
        user := some { sub := "u", email := "e", name := "n" },
        store := { access_token := some { payloadSeg := some { exp := some 99 } },
                   refresh_token := some "rt" } }).1 = false
    ∧ (FrontAuth.refreshAccessToken .err
      { accessToken := some { payloadSeg := some { exp := some 99 } },
        refreshToken := some "rt",
        user := some { sub := "u", email := "e", name := "n" },
        store := { access_token := some { payloadSeg := some { exp := some 99 } },
                   refresh_token := some "rt" } }).2
      = FrontAuth.clearTokens
        { accessToken := some { payloadSeg := some { exp := some 99 } },
          refreshToken := some "rt",
          user := some { sub := "u", email := "e", name := "n" },
          store := { access_token := some { payloadSeg := some { exp := some 99 } },
                     refresh_token := some "rt" } } :=
  ⟨(C8_theorem _ "rt" rfl).1, (C8_theorem _ "rt" rfl).2.1⟩

/-! ### C10 — malformed access token with refresh token present -/

/-- C10: storing an undecodable access token sets the decoded user to
`null`, `isTokenExpired` classifies it as expired, and with a refresh token
also stored `isAuthenticated()` reports `true` while `getUser()` reports
`null`. -/
theorem C10_theorem (t : Token) (r : String) (s0 : FrontAuth.AuthModuleState)
    (now : Int) (s : FrontAuth.AuthModuleState)
    (hseg : t.payloadSeg = none)
    (hs : s = FrontAuth.storeTokens t (some r) s0) :
    s.user = none
    ∧ FrontAuth.isTokenExpired t now = true
    ∧ FrontAuth.isAuthenticated now s = true
    ∧ FrontAuth.getUser now s = none := by
  subst hs
  refine ⟨?_, ?_, ?_, ?_⟩ <;>
    simp [FrontAuth.storeTokens, FrontAuth.decodeUser, hseg,
      FrontAuth.isTokenExpired, FrontAuth.isAuthenticated, FrontAuth.getUser]

/-- Witness for C10 at a concrete malformed token. -/
theorem C10_witness :
    (FrontAuth.storeTokens { payloadSeg := none } (some "rt") {}).user = none
    ∧ FrontAuth.isTokenExpired { payloadSeg := none } 0 = true
    ∧ FrontAuth.isAuthenticated 0
        (FrontAuth.storeTokens { payloadSeg := none } (some "rt") {}) = true
    ∧ FrontAuth.getUser 0
        (FrontAuth.storeTokens { payloadSeg := none } (some "rt") {}) = none :=
  C10_theorem { payloadSeg := none } "rt" {} 0 _ rfl rfl

/-! ### C6 — all-or-nothing credential handling -/

/-- C6 counterexample: an expired access token accompanied by a refresh
token is not treated as absent — `isAuthenticated()` reports `true` and
`getUser()` reports the identity decoded from the expired token, refuting
the claim that no operation reports identity or authenticated status from a
credential that is not fully valid. -/
theorem C6_counterexample :
    FrontAuth.isTokenExpired { payloadSeg := some { exp := some 0 } } 1000000 = true
    ∧ FrontAuth.isAuthenticated 1000000
        { accessToken := some { payloadSeg := some { exp := some 0 } },
          refreshToken := some "rt",
          user := some { sub := "u", email := "e", name := "n" } } = true
    ∧ FrontAuth.getUser 1000000
        { accessToken := some { payloadSeg := some { exp := some 0 } },
          refreshToken := some "rt",
          user := some { sub := "u", email := "e", name := "n" } }
      = some { sub := "u", email := "e", name := "n" } := by
  decide

/-- C6 (amended): `getSession` treats an unverifiable or expired session
cookie as absent, and `getAccessToken` never returns without a refresh
attempt a token it classifies as expired; but `getUser`/`isAuthenticated`
treat an expired access token accompanied by a refresh token as a live
session: `isAuthenticated()` is `true` and `getUser()` reports the decoded
user. -/
theorem C6_theorem :
    (∀ (now : Nat) (ck : SessionApi.Cookies) (t : SessionApi.SessionJwt),
      ck.session = some t → (t.sigOk = false ∨ t.exp ≤ now) →
      SessionApi.getSession now ck = none)
    ∧ (∀ (env : TokenFetch) (now : Int) (s : FrontAuth.AuthModuleState) (t : Token),
      (FrontAuth.getAccessToken env now s).refreshAttempted = false →
      (FrontAuth.getAccessToken env now s).result = some t →
      FrontAuth.isTokenExpired t now = false)
    ∧ (∀ (now : Int) (s : FrontAuth.AuthModuleState) (t : Token),
      s.accessToken = some t → FrontAuth.isTokenExpired t now = true →
      s.refreshToken.isSome = true →
      FrontAuth.isAuthenticated now s = true
      ∧ FrontAuth.getUser now s = s.user) := by
  refine ⟨?_, ?_, ?_⟩
  · intro now ck t hck hbad
    rcases hbad with hsig | hexp
    · simp [SessionApi.getSession, hck, SessionApi.SessionJwt.verify, hsig]
    · simp [SessionApi.getSession, hck, SessionApi.SessionJwt.verify,
        Nat.not_lt.mpr hexp]
  · intro env now s t hatt hres
    unfold FrontAuth.getAccessToken at hatt hres
    cases hacc : s.accessToken with
    | none =>
        rw [hacc] at hatt hres
        unfold FrontAuth.getAccessTokenTryRefresh at hatt hres
        cases hrt : s.refreshToken with
        | none => rw [hrt] at hres; simp at hres
        | some r =>
            rw [hrt] at hatt
            by_cases hok : (FrontAuth.refreshAccessToken env s).1 <;>
              simp [hok] at hatt
    | some t0 =>
        rw [hacc] at hatt hres
        simp only at hatt hres
        by_cases hexp : FrontAuth.isTokenExpired t0 now
        · rw [if_pos hexp] at hatt hres
          unfold FrontAuth.getAccessTokenTryRefresh at hatt hres
          cases hrt : s.refreshToken with
          | none => rw [hrt] at hres; simp at hres
          | some r =>
              rw [hrt] at hatt
              by_cases hok : (FrontAuth.refreshAccessToken env s).1 <;>
                simp [hok] at hatt
        · rw [if_neg hexp] at hres
          simp at hres
          subst hres
          simpa using hexp
  · intro now s t hacc hexp hrt
    obtain ⟨r, hr⟩ := Option.isSome_iff_exists.mp hrt
    constructor
    · simp [FrontAuth.isAuthenticated, hacc, hr]
    · simp [FrontAuth.getUser, hacc, hexp, hr]

/-- Witness for C6 at concrete inputs: an expired badly-signed session
cookie, and an expired access token with a refresh token. -/
theorem C6_witness :
    SessionApi.getSession 5
      { session := some { claims := { sub := "s", email := "", name := "" },
                          iat := 0, exp := 3, sigOk := true } } = none
    ∧ FrontAuth.isAuthenticated 1000000
        { accessToken := some { payloadSeg := some { exp := some 0 } },
          refreshToken := some "rt",
          user := some { sub := "u", email := "e", name := "n" } } = true :=
  ⟨C6_theorem.1 5 _ _ rfl (Or.inr (by decide)),
   (C6_theorem.2.2 1000000
      { accessToken := some { payloadSeg := some { exp := some 0 } },
        refreshToken := some "rt",
        user := some { sub := "u", email := "e", name := "n" } }
      { payloadSeg := some { exp := some 0 } } rfl (by decide) rfl).1⟩

/-! ### C3 — state mismatch fails before any network call -/

/-- C3: in both variants, a callback whose `state` differs from the stored
value fails — the browser handler returns `false` and the server handler
does not reach the success redirect — and the handler issues zero network
calls, so in particular zero requests to the token endpoint. -/
theorem C3_theorem (envF : TokenFetch) (pF : CallbackParams)
    (sF : FrontAuth.AuthModuleState) (cfg : SessionApi.Config)
    (envS : SessionApi.ExchangeOutcome) (now : Nat) (pS : CallbackParams)
    (ck : SessionApi.Cookies)
    (hF : pF.state ≠ sF.store.auth_state)
    (hS : pS.state ≠ ck.auth_state) :
    ((FrontAuth.handleCallback envF pF sF).success = false
      ∧ (FrontAuth.handleCallback envF pF sF).calls = [])
    ∧ ((SessionApi.callback cfg envS now pS ck).response ≠ .redirectApp
      ∧ (SessionApi.callback cfg envS now pS ck).calls = []) := by
  constructor
  · cases he : pF.error with
    | some e => simp [FrontAuth.handleCallback, he]
    | none =>
        cases hc : pF.code with
        | none => simp [FrontAuth.handleCallback, he, hc]
        | some c => simp [FrontAuth.handleCallback, he, hc, hF]
  · cases he : pS.error with
    | some e => simp [SessionApi.callback, he]
    | none =>
        cases hst : pS.state with
        | none => simp [SessionApi.callback, he, hst]
        | some st =>
            have hne : ck.auth_state ≠ some st := by
              rw [hst] at hS
              exact fun h => hS h.symm
            simp [SessionApi.callback, he, hst, hne]

/-- Witness for C3 at concrete mismatching states. -/
theorem C3_witness :
    ((FrontAuth.handleCallback .err
        { code := some "c", state := some "b" }
        { store := { pkce_verifier := some "v", auth_state := some "a" } }).success = false
      ∧ (FrontAuth.handleCallback .err
        { code := some "c", state := some "b" }
        { store := { pkce_verifier := some "v", auth_state := some "a" } }).calls = [])
    ∧ ((SessionApi.callback {} (.okVerified { sub := "u" }) 0
        { code := some "c", state := some "x" }
        { auth_state := some "y" }).response ≠ .redirectApp
      ∧ (SessionApi.callback {} (.okVerified { sub := "u" }) 0
        { code := some "c", state := some "x" }
        { auth_state := some "y" }).calls = []) :=
  C3_theorem .err { code := some "c", state := some "b" }
    { store := { pkce_verifier := some "v", auth_state := some "a" } }
    {} (.okVerified { sub := "u" }) 0
    { code := some "c", state := some "x" } { auth_state := some "y" }
    (by decide) (by decide)

/-! ### C4 — nonce mismatch is fatal in the session variant -/

/-- C4: in the server-session variant, when a login attempt issued a nonce
(stored by `serverLogin` in the `auth_nonce` cookie) and the verified ID
token's `nonce` claim differs from it, the callback answers the
invalid-nonce failure and does not mint or deliver a session cookie. -/
theorem C4_theorem (cfg : SessionApi.Config) (st n : String)
    (ck0 : SessionApi.Cookies) (payload : SessionApi.IdPayload) (now : Nat)
    (p : CallbackParams)
    (herr : p.error = none) (hst : p.state = some st)
    (hn : payload.nonce ≠ some n) :
    (SessionApi.callback cfg (.okVerified payload) now p
        (SessionApi.serverLogin cfg st n ck0).1).response = .invalidNonce
    ∧ (SessionApi.callback cfg (.okVerified payload) now p
        (SessionApi.serverLogin cfg st n ck0).1).cookies.session = ck0.session := by
  constructor <;>
    simp [SessionApi.callback, SessionApi.serverLogin, herr, hst, hn]

/-- Witness for C4: a login that stored nonce `n1` whose callback carries a
verified ID token with nonce `n2`. -/
theorem C4_witness :
    (SessionApi.callback {} (.okVerified { sub := "u", nonce := some "n2" }) 0
        { code := some "c", state := some "s", error := none }
        (SessionApi.serverLogin {} "s" "n1" {}).1).response = .invalidNonce
    ∧ (SessionApi.callback {} (.okVerified { sub := "u", nonce := some "n2" }) 0
        { code := some "c", state := some "s", error := none }
        (SessionApi.serverLogin {} "s" "n1" {}).1).cookies.session
      = (({} : SessionApi.Cookies)).session :=
  C4_theorem {} "s" "n1" {} { sub := "u", nonce := some "n2" } 0
    { code := some "c", state := some "s", error := none }
    rfl rfl (by decide)

/-! ### C5 — cleanup of single-use flow material -/

/-- C5 counterexample: a browser callback that fails on a state mismatch
leaves the single-use PKCE verifier and state in `sessionStorage`,
refuting the claim that they are removed on every terminal outcome. -/
theorem C5_counterexample :
    (FrontAuth.handleCallback .err
      { code := some "c", state := some "b" }
      { store := { pkce_verifier := some "v", auth_state := some "a" } }).success = false
    ∧ (FrontAuth.handleCallback .err
      { code := some "c", state := some "b" }
      { store := { pkce_verifier := some "v", auth_state := some "a" } }).state.store.pkce_verifier
      = some "v"
    ∧ (FrontAuth.handleCallback .err
      { code := some "c", state := some "b" }
      { store := { pkce_verifier := some "v", auth_state := some "a" } }).state.store.auth_state
      = some "a" := by
  decide

/-- C5 (amended): the single-use flow material is removed only on success —
a successful browser callback removes `pkce_verifier`/`auth_state` from
`sessionStorage`, and a successful server callback deletes the
`auth_state`/`auth_nonce` cookies; but every failing callback leaves its
holder exactly as it was (the browser state is returned unchanged and the
server cookies are returned unchanged, the latter lapsing only through
their own 5-minute expiry). -/
theorem C5_theorem :
    (∀ (env : TokenFetch) (p : CallbackParams) (s : FrontAuth.AuthModuleState),
      (FrontAuth.handleCallback env p s).success = true →
      (FrontAuth.handleCallback env p s).state.store.pkce_verifier = none
      ∧ (FrontAuth.handleCallback env p s).state.store.auth_state = none)
    ∧ (∀ (env : TokenFetch) (p : CallbackParams) (s : FrontAuth.AuthModuleState),
      (FrontAuth.handleCallback env p s).success = false →
      (FrontAuth.handleCallback env p s).state = s)
    ∧ (∀ (cfg : SessionApi.Config) (env : SessionApi.ExchangeOutcome) (now : Nat)
         (p : CallbackParams) (ck : SessionApi.Cookies),
      (SessionApi.callback cfg env now p ck).response = .redirectApp →
      (SessionApi.callback cfg env now p ck).cookies.auth_state = none
      ∧ (SessionApi.callback cfg env now p ck).cookies.auth_nonce = none)
    ∧ (∀ (cfg : SessionApi.Config) (env : SessionApi.ExchangeOutcome) (now : Nat)
         (p : CallbackParams) (ck : SessionApi.Cookies),
      (SessionApi.callback cfg env now p ck).response ≠ .redirectApp →
      (SessionApi.callback cfg env now p ck).cookies = ck) := by
  refine ⟨?_, ?_, ?_, ?_⟩
  · intro env p s h
    cases he : p.error with
    | some e => simp [FrontAuth.handleCallback, he] at h
    | none =>
        cases hc : p.code with
        | none => simp [FrontAuth.handleCallback, he, hc] at h
        | some c =>
            by_cases hst : p.state ≠ s.store.auth_state
            · simp [FrontAuth.handleCallback, he, hc, hst] at h
            · cases hv : s.store.pkce_verifier with
              | none => simp [FrontAuth.handleCallback, he, hc, hst, hv] at h
              | some v =>
                  cases env with
                  | err => simp [FrontAuth.handleCallback, he, hc, hst, hv] at h
                  | ok a r => simp [FrontAuth.handleCallback, he, hc, hst, hv]
  · intro env p s h
    cases he : p.error with
    | some e => simp [FrontAuth.handleCallback, he]
    | none =>
        cases hc : p.code with
        | none => simp [FrontAuth.handleCallback, he, hc]
        | some c =>
            by_cases hst : p.state ≠ s.store.auth_state
            · simp [FrontAuth.handleCallback, he, hc, hst]
            · cases hv : s.store.pkce_verifier with
              | none => simp [FrontAuth.handleCallback, he, hc, hst, hv]
              | some v =>
                  cases env with
                  | err => simp [FrontAuth.handleCallback, he, hc, hst, hv]
                  | ok a r => simp [FrontAuth.handleCallback, he, hc, hst, hv] at h
  · intro cfg env now p ck h
    cases he : p.error with
    | some e => simp [SessionApi.callback, he] at h
    | none =>
        cases hst : p.state with
        | none => simp [SessionApi.callback, he, hst] at h
        | some st =>
            by_cases hck : ck.auth_state ≠ some st
            · simp [SessionApi.callback, he, hst, hck] at h
            · cases env with
              | err => simp [SessionApi.callback, he, hst, hck] at h
              | okUnverifiable => simp [SessionApi.callback, he, hst, hck] at h
              | okVerified payload =>
                  cases hn : ck.auth_nonce with
                  | none => simp [SessionApi.callback, he, hst, hck, hn]
                  | some n =>
                      by_cases hnc : payload.nonce ≠ some n
                      · simp [SessionApi.callback, he, hst, hck, hn, hnc] at h
                      · simp [SessionApi.callback, he, hst, hck, hn, hnc]
  · intro cfg env now p ck h
    cases he : p.error with
    | some e => simp [SessionApi.callback, he]
    | none =>
        cases hst : p.state with
        | none => simp [SessionApi.callback, he, hst]
        | some st =>
            by_cases hck : ck.auth_state ≠ some st
            · simp [SessionApi.callback, he, hst, hck]
            · cases env with
              | err => simp [SessionApi.callback, he, hst, hck]
              | okUnverifiable => simp [SessionApi.callback, he, hst, hck]
              | okVerified payload =>
                  cases hn : ck.auth_nonce with
                  | none => simp [SessionApi.callback, he, hst, hck, hn] at h
                  | some n =>
                      by_cases hnc : payload.nonce ≠ some n
                      · simp [SessionApi.callback, he, hst, hck, hn, hnc]
                      · simp [SessionApi.callback, he, hst, hck, hn, hnc] at h

/-- Witness for C5: one successful and one failing run per variant. -/
theorem C5_witness :
    ((FrontAuth.handleCallback (.ok { payloadSeg := none } none)
        { code := some "c", state := some "a" }
        { store := { pkce_verifier := some "v", auth_state := some "a" } }).state.store.pkce_verifier
        = none
      ∧ (FrontAuth.handleCallback (.ok { payloadSeg := none } none)
        { code := some "c", state := some "a" }
        { store := { pkce_verifier := some "v", auth_state := some "a" } }).state.store.auth_state
        = none)
    ∧ (FrontAuth.handleCallback .err { code := some "c", state := some "b" }
        { store := { pkce_verifier := some "v", auth_state := some "a" } }).state
      = { store := { pkce_verifier := some "v", auth_state := some "a" } }
    ∧ ((SessionApi.callback {} (.okVerified { sub := "u", nonce := some "n" }) 0
        { code := some "c", state := some "s" }
        { auth_state := some "s", auth_nonce := some "n" }).cookies.auth_state = none
      ∧ (SessionApi.callback {} (.okVerified { sub := "u", nonce := some "n" }) 0
        { code := some "c", state := some "s" }
        { auth_state := some "s", auth_nonce := some "n" }).cookies.auth_nonce = none)
    ∧ (SessionApi.callback {} (.okVerified { sub := "u" }) 0
        { code := some "c", state := some "x" }
        { auth_state := some "y" }).cookies = { auth_state := some "y" } :=
  ⟨C5_theorem.1 (.ok { payloadSeg := none } none)
      { code := some "c", state := some "a" }
      { store := { pkce_verifier := some "v", auth_state := some "a" } } (by decide),
   C5_theorem.2.1 .err { code := some "c", state := some "b" }
      { store := { pkce_verifier := some "v", auth_state := some "a" } } (by decide),
   C5_theorem.2.2.1 {} (.okVerified { sub := "u", nonce := some "n" }) 0
      { code := some "c", state := some "s" }
      { auth_state := some "s", auth_nonce := some "n" } (by decide),
   C5_theorem.2.2.2 {} (.okVerified { sub := "u" }) 0
      { code := some "c", state := some "x" } { auth_state := some "y" } (by decide)⟩

/-! ### C2 — shape of the authorization-code exchange -/

/-- C2 counterexample: a successful server-variant callback exchanges the
code with a token-endpoint POST that carries no `code_verifier` at all (and
its login issues no PKCE challenge), refuting the claim that every
variant's exchange presents the original PKCE verifier. -/
theorem C2_counterexample :
    (SessionApi.callback {} (.okVerified { sub := "u" }) 0
      { code := some "c", state := some "s" }
      { auth_state := some "s" }).calls
    = [NetCall.discovery,
       NetCall.tokenEndpoint
         { grant_type := "authorization_code", code := some "c",
           redirect_uri := some "", client_id := some "",
           client_secret := some "" },
       NetCall.jwksFetch]
    ∧ ({ grant_type := "authorization_code", code := some "c",
         redirect_uri := some "", client_id := some "",
         client_secret := some "" } : TokenRequestBody).code_verifier = none
    ∧ (SessionApi.serverLogin {} "s" "n" {}).2.code_challenge = none := by
  decide

/-- C2 (amended): every token-endpoint call the browser callback issues
presents grant type `authorization_code`, the code, the redirect URI, the
client id and the stored PKCE verifier, with no client secret; every
token-endpoint call the server callback issues presents grant type, code,
redirect URI, client id and the client secret, with no PKCE verifier — and
the server login issues no PKCE challenge at flow start. -/
theorem C2_theorem :
    (∀ (env : TokenFetch) (p : CallbackParams) (s : FrontAuth.AuthModuleState)
       (b : TokenRequestBody),
      NetCall.tokenEndpoint b ∈ (FrontAuth.handleCallback env p s).calls →
      b.grant_type = "authorization_code" ∧ b.code = p.code
      ∧ b.redirect_uri = some FrontAuth.REDIRECT_URI
      ∧ b.client_id = some FrontAuth.CLIENT_ID
      ∧ b.code_verifier = s.store.pkce_verifier
      ∧ b.client_secret = none ∧ b.refresh_token = none)
    ∧ (∀ (cfg : SessionApi.Config) (env : SessionApi.ExchangeOutcome) (now : Nat)
         (p : CallbackParams) (ck : SessionApi.Cookies) (b : TokenRequestBody),
      NetCall.tokenEndpoint b ∈ (SessionApi.callback cfg env now p ck).calls →
      b.grant_type = "authorization_code" ∧ b.code = p.code
      ∧ b.redirect_uri = some cfg.REDIRECT_URI
      ∧ b.client_id = some cfg.CLIENT_ID
      ∧ b.client_secret = some cfg.CLIENT_SECRET
      ∧ b.code_verifier = none ∧ b.refresh_token = none)
    ∧ (∀ (cfg : SessionApi.Config) (st n : String) (ck : SessionApi.Cookies),
      (SessionApi.serverLogin cfg st n ck).2.code_challenge = none
      ∧ (SessionApi.serverLogin cfg st n ck).2.code_challenge_method = none) := by
  refine ⟨?_, ?_, ?_⟩
  · intro env p s b hmem
    cases he : p.error with
    | some e => simp [FrontAuth.handleCallback, he] at hmem
    | none =>
        cases hc : p.code with
        | none => simp [FrontAuth.handleCallback, he, hc] at hmem
        | some c =>
            by_cases hst : p.state ≠ s.store.auth_state
            · simp [FrontAuth.handleCallback, he, hc, hst] at hmem
            · cases hv : s.store.pkce_verifier with
              | none => simp [FrontAuth.handleCallback, he, hc, hst, hv] at hmem
              | some v =>
                  cases env with
                  | err =>
                      simp [FrontAuth.handleCallback, he, hc, hst, hv] at hmem
                      subst hmem
                      simp [hc, hv]
                  | ok a r =>
                      simp [FrontAuth.handleCallback, he, hc, hst, hv] at hmem
                      subst hmem
                      simp [hc, hv]
  · intro cfg env now p ck b hmem
    cases he : p.error with
    | some e => simp [SessionApi.callback, he] at hmem
    | none =>
        cases hst : p.state with
        | none => simp [SessionApi.callback, he, hst] at hmem
        | some st =>
            by_cases hck : ck.auth_state ≠ some st
            · simp [SessionApi.callback, he, hst, hck] at hmem
            · cases env with
              | err =>
                  simp [SessionApi.callback, he, hst, hck] at hmem
                  subst hmem
                  simp
              | okUnverifiable =>
                  simp [SessionApi.callback, he, hst, hck] at hmem
                  subst hmem
                  simp
              | okVerified payload =>
                  cases hn : ck.auth_nonce with
                  | none =>
                      simp [SessionApi.callback, he, hst, hck, hn] at hmem
                      subst hmem
                      simp
                  | some n =>
                      by_cases hnc : payload.nonce ≠ some n <;>
                        · simp [SessionApi.callback, he, hst, hck, hn, hnc] at hmem
                          subst hmem
                          simp
  · intro cfg st n ck
    exact ⟨rfl, rfl⟩

/-- Witness for C2: the exchange bodies of one successful run per variant. -/
theorem C2_witness :
    (({ grant_type := "authorization_code", code := some "c",
        redirect_uri := some FrontAuth.REDIRECT_URI,
        client_id := some FrontAuth.CLIENT_ID,
        code_verifier := some "v" } : TokenRequestBody).code
      = ({ code := some "c", state := some "a" } : CallbackParams).code
      ∧ ({ grant_type := "authorization_code", code := some "c",
           redirect_uri := some FrontAuth.REDIRECT_URI,
           client_id := some FrontAuth.CLIENT_ID,
           code_verifier := some "v" } : TokenRequestBody).code_verifier
        = ({ store := { pkce_verifier := some "v", auth_state := some "a" } }
            : FrontAuth.AuthModuleState).store.pkce_verifier)
    ∧ ({ grant_type := "authorization_code", code := some "c",
         redirect_uri := some "", client_id := some "",
         client_secret := some "" } : TokenRequestBody).code_verifier = none := by
  have h1 := C2_theorem.1 (.ok { payloadSeg := none } none)
    { code := some "c", state := some "a" }
    { store := { pkce_verifier := some "v", auth_state := some "a" } }
    { grant_type := "authorization_code", code := some "c",
      redirect_uri := some FrontAuth.REDIRECT_URI,
      client_id := some FrontAuth.CLIENT_ID,
      code_verifier := some "v" } (by decide)
  have h2 := C2_theorem.2.1 {} (.okVerified { sub := "u" }) 0
    { code := some "c", state := some "s" } { auth_state := some "s" }
    { grant_type := "authorization_code", code := some "c",
      redirect_uri := some "", client_id := some "",
      client_secret := some "" } (by decide)
  exact ⟨⟨h1.2.1, h1.2.2.2.2.1⟩, h2.2.2.2.2.2.1⟩

/-! ### C1 — rejection of requests without a valid credential -/

theorem bearerRequireAuth_cases (verify : String → Option JwtPayload)
    (hdr : Option String) :
    (∃ u, BearerApi.requireAuth verify hdr = .ok u)
    ∨ BearerApi.requireAuth verify hdr = .reject 401 "unauthorized"
    ∨ BearerApi.requireAuth verify hdr = .reject 401 "invalid_token" := by
  unfold BearerApi.requireAuth
  cases hdr with
  | none => right; left; rfl
  | some h =>
      by_cases hb : jsStartsWith h "Bearer "
      · cases hv : verify (jsSlice h 7) with
        | none => right; right; simp [hb, hv]
        | some payload =>
            left
            exact ⟨{ sub := payload.sub.getD "", email := payload.email.getD "",
                     name := jsOr (payload.name.getD "")
                       (payload.preferred_username.getD "") },
                   by simp [hb, hv]⟩
      · right; left; simp [hb]

/-- C1 counterexample: the second backend variant answers a credential-less
`GET /api/todos` with 200 and runs the select, and the bearer variant
answers an unverifiable token with body `invalid_token` rather than
`unauthorized` — refuting the claim that every variant rejects every
credential-less request with 401 `unauthorized` before touching storage. -/
theorem C1_counterexample :
    (OpenApi.getTodos [{ id := 1, text := "a", completed := false, created_at := 0 }]).1.status
      = 200
    ∧ (OpenApi.getTodos [{ id := 1, text := "a", completed := false, created_at := 0 }]).2
      = [DbOp.selectAll]
    ∧ (BearerApi.getTodos (fun _ => none) (some "Bearer x")
        [{ id := 1, text := "a", completed := false, created_at := 0 }]).1
      = { status := 401, body := .errMsg "invalid_token" } := by
  refine ⟨rfl, rfl, rfl⟩

/-- C1 (amended): in the bearer variant every request whose `Authorization`
header yields no verified user is rejected with 401 — body `unauthorized`
for a missing/malformed header, `invalid_token` for an unverifiable token —
and in the session variant every request without a verifiable session
cookie is rejected with 401 `unauthorized`; in both protected variants the
rejection happens before any todo storage operation.  The second backend
variant leaves the todo routes unprotected and always runs the storage
operation. -/
theorem C1_theorem (verify : String → Option JwtPayload) (hdr : Option String)
    (now : Nat) (ck : SessionApi.Cookies) (db : List Todo) (txt : Option String)
    (nid ts id : Nat) (pb : PatchBody)
    (hb : ∀ u, BearerApi.requireAuth verify hdr ≠ .ok u)
    (hs : SessionApi.getSession now ck = none) :
    (∃ bmsg, BearerApi.requireAuth verify hdr = .reject 401 bmsg
      ∧ (bmsg = "unauthorized" ∨ bmsg = "invalid_token"))
    ∧ ((BearerApi.getTodos verify hdr db).1.status = 401
      ∧ (BearerApi.getTodos verify hdr db).2 = [])
    ∧ ((BearerApi.postTodos verify hdr txt nid ts db).1.1.status = 401
      ∧ (BearerApi.postTodos verify hdr txt nid ts db).1.2 = db
      ∧ (BearerApi.postTodos verify hdr txt nid ts db).2 = [])
    ∧ ((BearerApi.patchTodo verify hdr id pb db).1.1.status = 401
      ∧ (BearerApi.patchTodo verify hdr id pb db).1.2 = db
      ∧ (BearerApi.patchTodo verify hdr id pb db).2 = [])
    ∧ ((BearerApi.deleteTodo verify hdr id db).1.1.status = 401
      ∧ (BearerApi.deleteTodo verify hdr id db).1.2 = db
      ∧ (BearerApi.deleteTodo verify hdr id db).2 = [])
    ∧ ((SessionApi.getTodos now ck db).1
        = { status := 401, body := .errMsg "unauthorized" }
      ∧ (SessionApi.getTodos now ck db).2 = [])
    ∧ ((SessionApi.postTodos now ck txt nid ts db).1.1
        = { status := 401, body := .errMsg "unauthorized" }
      ∧ (SessionApi.postTodos now ck txt nid ts db).1.2 = db
      ∧ (SessionApi.postTodos now ck txt nid ts db).2 = [])
    ∧ ((SessionApi.patchTodo now ck id pb db).1.1
        = { status := 401, body := .errMsg "unauthorized" }
      ∧ (SessionApi.patchTodo now ck id pb db).1.2 = db
      ∧ (SessionApi.patchTodo now ck id pb db).2 = [])
    ∧ ((SessionApi.deleteTodo now ck id db).1.1
        = { status := 401, body := .errMsg "unauthorized" }
      ∧ (SessionApi.deleteTodo now ck id db).1.2 = db
      ∧ (SessionApi.deleteTodo now ck id db).2 = [])
    ∧ ((OpenApi.getTodos db).1.status = 200
      ∧ (OpenApi.getTodos db).2 = [DbOp.selectAll]) := by
  obtain ⟨bmsg, hbm, hbor⟩ :
      ∃ bmsg, BearerApi.requireAuth verify hdr = .reject 401 bmsg
        ∧ (bmsg = "unauthorized" ∨ bmsg = "invalid_token") := by
    rcases bearerRequireAuth_cases verify hdr with ⟨u, hu⟩ | h | h
    · exact absurd hu (hb u)
    · exact ⟨_, h, Or.inl rfl⟩
    · exact ⟨_, h, Or.inr rfl⟩
  have hsre : SessionApi.requireAuth now ck = .reject 401 "unauthorized" := by
    unfold SessionApi.requireAuth
    rw [hs]
  refine ⟨⟨bmsg, hbm, hbor⟩, ?_, ?_, ?_, ?_, ?_, ?_, ?_, ?_, ?_⟩
  · simp [BearerApi.getTodos, hbm]
  · simp [BearerApi.postTodos, hbm]
  · simp [BearerApi.patchTodo, hbm]
  · simp [BearerApi.deleteTodo, hbm]
  · simp [SessionApi.getTodos, hsre]
  · simp [SessionApi.postTodos, hsre]
  · simp [SessionApi.patchTodo, hsre]
  · simp [SessionApi.deleteTodo, hsre]
  · simp [OpenApi.getTodos, Routes.getTodos]

/-- Witness for C1: no `Authorization` header, no session cookie. -/
theorem C1_witness :
    (∃ bmsg, BearerApi.requireAuth (fun _ => none) none = .reject 401 bmsg
      ∧ (bmsg = "unauthorized" ∨ bmsg = "invalid_token"))
    ∧ ((BearerApi.getTodos (fun _ => none) none []).1.status = 401
      ∧ (BearerApi.getTodos (fun _ => none) none []).2 = [])
    ∧ ((BearerApi.postTodos (fun _ => none) none (some "x") 1 0 []).1.1.status = 401
      ∧ (BearerApi.postTodos (fun _ => none) none (some "x") 1 0 []).1.2 = []
      ∧ (BearerApi.postTodos (fun _ => none) none (some "x") 1 0 []).2 = [])
    ∧ ((BearerApi.patchTodo (fun _ => none) none 1 {} []).1.1.status = 401
      ∧ (BearerApi.patchTodo (fun _ => none) none 1 {} []).1.2 = []
      ∧ (BearerApi.patchTodo (fun _ => none) none 1 {} []).2 = [])
    ∧ ((BearerApi.deleteTodo (fun _ => none) none 1 []).1.1.status = 401
      ∧ (BearerApi.deleteTodo (fun _ => none) none 1 []).1.2 = []
      ∧ (BearerApi.deleteTodo (fun _ => none) none 1 []).2 = [])
    ∧ ((SessionApi.getTodos 0 {} []).1
        = { status := 401, body := .errMsg "unauthorized" }
      ∧ (SessionApi.getTodos 0 {} []).2 = [])
    ∧ ((SessionApi.postTodos 0 {} (some "x") 1 0 []).1.1
        = { status := 401, body := .errMsg "unauthorized" }
      ∧ (SessionApi.postTodos 0 {} (some "x") 1 0 []).1.2 = []
      ∧ (SessionApi.postTodos 0 {} (some "x") 1 0 []).2 = [])
    ∧ ((SessionApi.patchTodo 0 {} 1 {} []).1.1
        = { status := 401, body := .errMsg "unauthorized" }
      ∧ (SessionApi.patchTodo 0 {} 1 {} []).1.2 = []
      ∧ (SessionApi.patchTodo 0 {} 1 {} []).2 = [])
    ∧ ((SessionApi.deleteTodo 0 {} 1 []).1.1
        = { status := 401, body := .errMsg "unauthorized" }
      ∧ (SessionApi.deleteTodo 0 {} 1 []).1.2 = []
      ∧ (SessionApi.deleteTodo 0 {} 1 []).2 = [])
    ∧ ((OpenApi.getTodos ([] : List Todo)).1.status = 200
      ∧ (OpenApi.getTodos ([] : List Todo)).2 = [DbOp.selectAll]) :=
  C1_theorem (fun _ => none) none 0 {} [] (some "x") 1 0 1 {}
    (by intro u hu; simp [BearerApi.requireAuth] at hu) rfl

end TodoApp
